import Mathlib

/-!
Verification of `src/esp_at_lib/src/esp/esp_ap.c` (ESP-AT library, access-point
module) against its natural-language specification.

Embedding conventions:
* Device memory is a cell-addressed store `Mem := Nat → Nat`; a C pointer is an
  `Option Nat` (a cell address, or `none` for `NULL`).  An `esp_ip_t` occupies
  4 consecutive cells, an `esp_mac_t` 6 consecutive cells, a C string one cell
  per character terminated by a zero cell.
* Each public function of the module is translated to a Lean function on the
  store and its (pointer / scalar) arguments.  Its result is a `CallResult`:
  either a synchronous parameter-error return, an undefined null-pointer read,
  or a fully built request record handed to the dispatcher together with the
  deadline (`timeout`) argument of the submission call.
* `esp_ap_list_sta` also writes through its `staf` output pointer before
  submitting, so it returns the updated store alongside the `CallResult`.
-/

/-- A cell-addressed memory: address to contents. -/
def Mem : Type := Nat → Nat

/-- Read `n` consecutive cells starting at address `a` (the `ESP_MEMCPY`
source bytes). -/
def readCells (mem : Mem) (a n : Nat) : List Nat :=
  (List.range n).map (fun i => mem (a + i))

/-- Store `v` at address `a`. -/
def writeCell (mem : Mem) (a v : Nat) : Mem :=
  fun x => if x = a then v else mem x

/-- `strlen(p) <= n` for the C string at address `a`: some cell among the
first `n + 1` is the zero terminator. -/
def strlen_le (mem : Mem) (a n : Nat) : Bool :=
  (List.range (n + 1)).any (fun i => mem (a + i) == 0)

/-- The `espr_t` result codes relevant to this module.
Modelled from the spec: the `espr_t` enumeration is declared in a header that
is not under `src/`; the spec's outcome taxonomy gives `InvalidArgument`
(= `espPARERR`) for validator rejection. -/
inductive espr_t : Type
  | espOK
  | espERR
  | espPARERR
  | espERRMEM
  | espTIMEOUT
  deriving DecidableEq, Repr

/-- Encryption-mode constants of `esp_ecn_t` (values as in the device
protocol: `WEP = 1` exists in the enumeration but is rejected for APs). -/
def ESP_ECN_OPEN : Nat := 0

/-- `esp_ecn_t` constant: WEP. -/
def ESP_ECN_WEP : Nat := 1

/-- `esp_ecn_t` constant: WPA-PSK. -/
def ESP_ECN_WPA_PSK : Nat := 2

/-- `esp_ecn_t` constant: WPA2-PSK. -/
def ESP_ECN_WPA2_PSK : Nat := 3

/-- `esp_ecn_t` constant: WPA/WPA2-PSK. -/
def ESP_ECN_WPA_WPA2_PSK : Nat := 4

/-- Command identifiers (`esp_cmd_t`) used by this module. -/
inductive esp_cmd_t : Type
  | ESP_CMD_WIFI_CIPAP_GET
  | ESP_CMD_WIFI_CIPAP_SET
  | ESP_CMD_WIFI_CIPAPMAC_GET
  | ESP_CMD_WIFI_CIPAPMAC_SET
  | ESP_CMD_WIFI_CWSAP_SET
  | ESP_CMD_WIFI_CWLIF
  | ESP_CMD_WIFI_CWQIF
  deriving DecidableEq, Repr

/-- The payload union `msg` of the request record (`esp_msg_t`), restricted
to the variants populated in this module.  Fields that the source fills by
pointer assignment hold a pointer (`Option Nat`); fields the source fills by
`ESP_MEMCPY` hold the copied cell contents (`List Nat`). -/
inductive MsgPayload : Type
  | sta_ap_getip (ip gw nm : Option Nat)
  | sta_ap_setip (ip gw nm : List Nat)
  | sta_ap_getmac (mac : Option Nat)
  | sta_ap_setmac (mac : List Nat)
  | ap_conf (ssid pwd : Option Nat) (ch ecn max_sta hid : Nat)
  | sta_list (stas : Option Nat) (stal : Nat) (staf : Option Nat)
  | ap_disconn_sta (mac : List Nat)
  deriving DecidableEq, Repr

/-- The request record (`esp_msg_t`) as built by this module: command tag,
completion-event callback and argument, blocking flag, payload.
Modelled from the spec where the header is missing: `ESP_MSG_VAR_ALLOC`
(record allocation, assumed to succeed) and `ESP_MSG_VAR_SET_EVT` are macros
not under `src/`; the spec's Request Record lists exactly these fields. -/
structure esp_msg : Type where
  cmd_def : esp_cmd_t
  evt_fn : Option Nat
  evt_arg : Nat
  is_blocking : Bool
  payload : MsgPayload
  deriving DecidableEq, Repr

/-- Outcome of one public command function, up to the dispatcher.
Modelled from the spec: `ESP_ASSERT` (validator failure) is a macro not under
`src/`; per the spec it "fails immediately with an `InvalidArgument`
outcome; no Request Record is constructed and nothing is queued", modelled as
`parerr`.  `submitted msg t` records that `espi_send_msg_to_producer_mbox`
(the dispatcher submission, also not under `src/`) received record `msg`
with deadline `t`; its eventual status is the dispatcher's.  `nullDeref`
marks an `ESP_MEMCPY` whose source pointer is `NULL` (undefined behaviour in
the C source). -/
inductive CallResult : Type
  | parerr
  | nullDeref
  | submitted (msg : esp_msg) (timeout : Nat)
  deriving DecidableEq, Repr

/-- The synchronous return value visible at the call site: `parerr` returns
`espPARERR`; a submitted record's return value is determined by the
dispatcher (and is `none` here); a null dereference has no defined return. -/
def retOf : CallResult → Option espr_t
  | .parerr => some .espPARERR
  | .nullDeref => none
  | .submitted _ _ => none

/-- The deadline handed to the dispatcher, when submission happened. -/
def timeoutOf : CallResult → Option Nat
  | .submitted _ t => some t
  | _ => none

/-- `esp_ap_getip`: no validation; stores the three output pointers in the
record and submits with deadline 1000. -/
def esp_ap_getip (ip gw nm : Option Nat)
    (evt_fn : Option Nat) (evt_arg blocking : Nat) : CallResult :=
  .submitted
    { cmd_def := .ESP_CMD_WIFI_CIPAP_GET
      evt_fn := evt_fn
      evt_arg := evt_arg
      is_blocking := blocking > 0
      payload := .sta_ap_getip ip gw nm } 1000

/-- `esp_ap_setip`: asserts `ip != NULL`, then copies `ip`, `gw`, `nm`
(4 cells each) into the record unconditionally — a `NULL` `gw` or `nm` is
used as an `ESP_MEMCPY` source — and submits with deadline 1000. -/
def esp_ap_setip (mem : Mem) (ip gw nm : Option Nat)
    (evt_fn : Option Nat) (evt_arg blocking : Nat) : CallResult :=
  match ip with
  | none => .parerr
  | some aip =>
    match gw, nm with
    | some agw, some anm =>
      .submitted
        { cmd_def := .ESP_CMD_WIFI_CIPAP_SET
          evt_fn := evt_fn
          evt_arg := evt_arg
          is_blocking := blocking > 0
          payload := .sta_ap_setip (readCells mem aip 4) (readCells mem agw 4)
            (readCells mem anm 4) } 1000
    | _, _ => .nullDeref

/-- `esp_ap_getmac`: no validation; stores the output pointer and submits
with deadline 1000. -/
def esp_ap_getmac (mac : Option Nat)
    (evt_fn : Option Nat) (evt_arg blocking : Nat) : CallResult :=
  .submitted
    { cmd_def := .ESP_CMD_WIFI_CIPAPMAC_GET
      evt_fn := evt_fn
      evt_arg := evt_arg
      is_blocking := blocking > 0
      payload := .sta_ap_getmac mac } 1000

/-- `esp_ap_setmac`: asserts `mac != NULL` and that bit 0 of the first octet
is clear, then copies the 6 MAC cells into the record and submits with
deadline 1000 (the literal at the submission call of the source). -/
def esp_ap_setmac (mem : Mem) (mac : Option Nat)
    (evt_fn : Option Nat) (evt_arg blocking : Nat) : CallResult :=
  match mac with
  | none => .parerr
  | some amac =>
    if mem amac % 2 = 1 then .parerr
    else
      .submitted
        { cmd_def := .ESP_CMD_WIFI_CIPAPMAC_SET
          evt_fn := evt_fn
          evt_arg := evt_arg
          is_blocking := blocking > 0
          payload := .sta_ap_setmac (readCells mem amac 6) } 1000

/-- The passphrase precondition of `esp_ap_configure`:
`pwd == NULL || strlen(pwd) <= 64`. -/
def pwd_len_ok (mem : Mem) (pwd : Option Nat) : Bool :=
  match pwd with
  | none => true
  | some ap => strlen_le mem ap 64

/-- The encryption-mode precondition of `esp_ap_configure`:
`ecn` equals one of `OPEN`, `WPA_PSK`, `WPA2_PSK`, `WPA_WPA2_PSK`. -/
def ecn_ok (ecn : Nat) : Bool :=
  ecn == ESP_ECN_OPEN || ecn == ESP_ECN_WPA_PSK || ecn == ESP_ECN_WPA2_PSK ||
    ecn == ESP_ECN_WPA_WPA2_PSK

/-- `esp_ap_configure`: runs the five `ESP_ASSERT` checks in source order,
then stores `ssid` and `pwd` by pointer assignment and the scalars by value,
and submits with deadline 10000. -/
def esp_ap_configure (mem : Mem) (ssid pwd : Option Nat)
    (ch ecn max_sta hid : Nat)
    (evt_fn : Option Nat) (evt_arg blocking : Nat) : CallResult :=
  match ssid with
  | none => .parerr
  | some assid =>
    if !pwd_len_ok mem pwd then .parerr
    else if !ecn_ok ecn then .parerr
    else if 128 < ch then .parerr
    else if max_sta = 0 ∨ 10 < max_sta then .parerr
    else
      .submitted
        { cmd_def := .ESP_CMD_WIFI_CWSAP_SET
          evt_fn := evt_fn
          evt_arg := evt_arg
          is_blocking := blocking > 0
          payload := .ap_conf (some assid) pwd ch ecn max_sta hid } 10000

/-- `esp_ap_list_sta`: asserts `sta != NULL` and `stal > 0`; then writes 0
through `staf` when `staf` is non-`NULL`; then submits with deadline 1000.
Returns the (possibly updated) store alongside the call result. -/
def esp_ap_list_sta (mem : Mem) (sta : Option Nat) (stal : Nat)
    (staf : Option Nat)
    (evt_fn : Option Nat) (evt_arg blocking : Nat) : CallResult × Mem :=
  match sta with
  | none => (.parerr, mem)
  | some asta =>
    if stal = 0 then (.parerr, mem)
    else
      let mem' : Mem :=
        match staf with
        | none => mem
        | some af => writeCell mem af 0
      (.submitted
        { cmd_def := .ESP_CMD_WIFI_CWLIF
          evt_fn := evt_fn
          evt_arg := evt_arg
          is_blocking := blocking > 0
          payload := .sta_list (some asta) stal staf } 1000, mem')

/-- `esp_ap_disconn_sta`: asserts `mac != NULL`, copies the 6 MAC cells into
the record and submits with deadline 1000. -/
def esp_ap_disconn_sta (mem : Mem) (mac : Option Nat)
    (evt_fn : Option Nat) (evt_arg blocking : Nat) : CallResult :=
  match mac with
  | none => .parerr
  | some amac =>
    .submitted
      { cmd_def := .ESP_CMD_WIFI_CWQIF
        evt_fn := evt_fn
        evt_arg := evt_arg
        is_blocking := blocking > 0
        payload := .ap_disconn_sta (readCells mem amac 6) } 1000

/-- Modelled from the spec: the Dispatcher Queue and its single worker
(`espi_send_msg_to_producer_mbox` and the processing thread) are not under
`src/`.  Per the spec, submitted records wait in a bounded FIFO, exactly one
is executed at a time, and each reaches a terminal state once.  Records are
identified by their submission sequence number; `queue` holds the pending
records in submission order, `active` the record being executed (if any),
`done` the terminal records in completion order, and `nextSeq` the next
sequence number to assign. -/
structure DispState : Type where
  queue : List Nat
  active : Option Nat
  done : List Nat
  nextSeq : Nat

/-- The dispatcher's initial state: nothing submitted. -/
def initDisp : DispState := ⟨[], none, [], 0⟩

/-- Modelled from the spec: one atomic step of the dispatcher system, for
any interleaving of callers and the worker.  A caller may submit (append to
the FIFO); the worker may start executing the head of the FIFO when no
record is executing, and may finish the executing record, making it
terminal.  Blocking and non-blocking submissions append identically, so the
mode does not enter the rules. -/
inductive DispStep : DispState → DispState → Prop
  | submit (s : DispState) :
      DispStep s ⟨s.queue ++ [s.nextSeq], s.active, s.done, s.nextSeq + 1⟩
  | start (s : DispState) (k : Nat) (rest : List Nat)
      (hq : s.queue = k :: rest) (ha : s.active = none) :
      DispStep s ⟨rest, some k, s.done, s.nextSeq⟩
  | finish (s : DispState) (k : Nat) (ha : s.active = some k) :
      DispStep s ⟨s.queue, none, s.done ++ [k], s.nextSeq⟩

/-- States the dispatcher system can reach from its initial state. -/
def DispReach (s : DispState) : Prop :=
  Relation.ReflTransGen DispStep initDisp s

/-- Number of records currently in the active (executing) state. -/
def activeCount (s : DispState) : Nat := s.active.toList.length

/-- The main dispatcher invariant: completed records, then the active one,
then the pending queue, list every submitted sequence number exactly once in
submission order. -/
def dispInv (s : DispState) : Prop :=
  s.done ++ s.active.toList ++ s.queue = List.range s.nextSeq

/-- A dispatcher state reachable in four steps (two submissions, one
execution started and finished): record 0 completed, record 1 pending. -/
def dispDemo : DispState := ⟨[1], none, [0], 2⟩

/-- A concrete identity store, used for witnesses: cell `x` holds `x`. -/
def memId : Mem := fun x => x

/-- The disjunction of `esp_ap_configure` precondition violations as the
claim enumerates them: null SSID, non-null passphrase longer than 64
characters, encryption mode outside {Open, WPA-PSK, WPA2-PSK,
WPA/WPA2-PSK}, channel above 128, station limit outside [1,10]. -/
def apConfRejected (mem : Mem) (ssid pwd : Option Nat)
    (ch ecn max_sta : Nat) : Bool :=
  ssid.isNone || (pwd.isSome && !pwd_len_ok mem pwd) || !ecn_ok ecn ||
    decide (128 < ch) || decide (max_sta < 1) || decide (10 < max_sta)

theorem dispStep_inv {s t : DispState} (hst : DispStep s t) (hs : dispInv s) :
    dispInv t := by
  cases hst with
  | submit =>
    unfold dispInv at *
    simp only [List.range_succ, ← hs, List.append_assoc]
  | start k rest hq ha =>
    unfold dispInv at *
    rw [hq, ha] at hs
    simpa using hs
  | finish k ha =>
    unfold dispInv at *
    rw [ha] at hs
    simpa [List.append_assoc] using hs

theorem dispReach_inv {s : DispState} (hs : DispReach s) : dispInv s := by
  induction hs with
  | refl => rfl
  | tail _ hstep ih => exact dispStep_inv hstep ih

theorem done_eq_range {s : DispState} (hs : dispInv s) :
    s.done = List.range s.done.length := by
  unfold dispInv at hs
  rw [List.append_assoc] at hs
  have h1 : (s.done ++ (s.active.toList ++ s.queue)).take s.done.length = s.done :=
    List.take_left _ _
  have hlen : s.done.length ≤ s.nextSeq := by
    have h2 := congrArg List.length hs
    simp only [List.length_append, List.length_range] at h2
    omega
  rw [hs, List.take_range, min_eq_left hlen] at h1
  exact h1.symm

/-- C8: in every reachable dispatcher state — for any interleaving of
concurrent callers and the worker, in any blocking mode — at most one
record is active (being executed) at any instant; the completed records,
the active record and the pending queue list the submitted sequence numbers
in exact submission order; and hence records complete in exactly the order
they were submitted, with no overtaking. -/
theorem c8_single_active_fifo_order (s : DispState) (hs : DispReach s) :
    activeCount s ≤ 1 ∧
    s.done ++ s.active.toList ++ s.queue = List.range s.nextSeq ∧
    s.done = List.range s.done.length := by
  have hinv := dispReach_inv hs
  refine ⟨?_, hinv, done_eq_range hinv⟩
  unfold activeCount
  cases s.active <;> simp

/-- Witness for C8: the four-step run submit, submit, start, finish reaches
`dispDemo`, where the invariant holds concretely. -/
theorem c8_single_active_fifo_order_witness :
    DispReach dispDemo ∧
    (activeCount dispDemo ≤ 1 ∧
     dispDemo.done ++ dispDemo.active.toList ++ dispDemo.queue =
       List.range dispDemo.nextSeq ∧
     dispDemo.done = List.range dispDemo.done.length) := by
  have h1 : DispStep initDisp ⟨[0], none, [], 1⟩ := DispStep.submit initDisp
  have h2 : DispStep ⟨[0], none, [], 1⟩ ⟨[0, 1], none, [], 2⟩ :=
    DispStep.submit ⟨[0], none, [], 1⟩
  have h3 : DispStep ⟨[0, 1], none, [], 2⟩ ⟨[1], some 0, [], 2⟩ :=
    DispStep.start ⟨[0, 1], none, [], 2⟩ 0 [1] rfl rfl
  have h4 : DispStep ⟨[1], some 0, [], 2⟩ dispDemo :=
    DispStep.finish ⟨[1], some 0, [], 2⟩ 0 rfl
  have hr : DispReach dispDemo :=
    Relation.ReflTransGen.tail
      (Relation.ReflTransGen.tail
        (Relation.ReflTransGen.tail
          (Relation.ReflTransGen.tail Relation.ReflTransGen.refl h1) h2) h3) h4
  exact ⟨hr, c8_single_active_fifo_order dispDemo hr⟩

/-- C1: `esp_ap_configure` fails with `InvalidArgument` (`espPARERR`),
building and submitting nothing, exactly when the SSID is null, or the
passphrase is non-null with length above 64, or the encryption mode is
outside {Open, WPA-PSK, WPA2-PSK, WPA/WPA2-PSK}, or the channel exceeds
128, or the station limit is outside [1,10]; otherwise the record is built
(SSID/passphrase by pointer, scalars by value) and submitted with deadline
10000. -/
theorem c1_configure_validation (mem : Mem) (ssid pwd : Option Nat)
    (ch ecn max_sta hid : Nat) (f : Option Nat) (a b : Nat) :
    esp_ap_configure mem ssid pwd ch ecn max_sta hid f a b =
      if apConfRejected mem ssid pwd ch ecn max_sta then .parerr
      else
        .submitted
          { cmd_def := .ESP_CMD_WIFI_CWSAP_SET
            evt_fn := f
            evt_arg := a
            is_blocking := b > 0
            payload := .ap_conf ssid pwd ch ecn max_sta hid } 10000 := by
  cases ssid with
  | none => simp [esp_ap_configure, apConfRejected]
  | some assid =>
    have hpwd : (pwd.isSome && !pwd_len_ok mem pwd) = !pwd_len_ok mem pwd := by
      cases pwd <;> simp [pwd_len_ok]
    simp only [esp_ap_configure, apConfRejected, hpwd, Option.isNone_some,
      Bool.false_or]
    by_cases h1 : pwd_len_ok mem pwd <;>
      by_cases h2 : ecn_ok ecn <;>
        by_cases h3 : 128 < ch <;>
          by_cases h4 : max_sta < 1 <;>
            by_cases h5 : 10 < max_sta <;>
              simp [h1, h2, h3, h4, h5] <;> omega

/-- C2 counterexample: the claim puts `esp_ap_setmac` in the
10000-time-unit family, but the source's submission call passes the
literal 1000 — at a concrete valid MAC (cell 2 of the identity store, low
bit clear) the record is submitted with deadline 1000, not 10000. -/
theorem c2_counterexample :
    timeoutOf (esp_ap_setmac memId (some 2) none 0 1) = some 1000 ∧
    timeoutOf (esp_ap_setmac memId (some 2) none 0 1) ≠ some 10000 := by
  exact ⟨rfl, by decide⟩

/-- C2 (amended): every submission in this module carries the family's
deadline as the source passes it — `esp_ap_getip`, `esp_ap_setip`,
`esp_ap_getmac`, `esp_ap_setmac`, `esp_ap_list_sta` and
`esp_ap_disconn_sta` submit with deadline 1000, and only the NVS-persisting
`esp_ap_configure` submits with deadline 10000 (stated with `Option.getD`,
so a call that never submits satisfies its conjunct vacuously). -/
theorem c2_family_deadlines (mem : Mem) (ip gw nm mac ssid pwd sta staf : Option Nat)
    (ch ecn max_sta hid stal : Nat) (f : Option Nat) (a b : Nat) :
    timeoutOf (esp_ap_getip ip gw nm f a b) = some 1000 ∧
    (timeoutOf (esp_ap_setip mem ip gw nm f a b)).getD 1000 = 1000 ∧
    timeoutOf (esp_ap_getmac mac f a b) = some 1000 ∧
    (timeoutOf (esp_ap_setmac mem mac f a b)).getD 1000 = 1000 ∧
    (timeoutOf (esp_ap_configure mem ssid pwd ch ecn max_sta hid f a b)).getD 10000 = 10000 ∧
    (timeoutOf (esp_ap_list_sta mem sta stal staf f a b).1).getD 1000 = 1000 ∧
    (timeoutOf (esp_ap_disconn_sta mem mac f a b)).getD 1000 = 1000 := by
  refine ⟨rfl, ?_, rfl, ?_, ?_, ?_, ?_⟩
  · cases ip with
    | none => rfl
    | some aip => cases gw <;> cases nm <;> rfl
  · cases mac with
    | none => rfl
    | some amac =>
      by_cases h : mem amac % 2 = 1 <;> simp [esp_ap_setmac, h, timeoutOf]
  · cases ssid with
    | none => rfl
    | some assid =>
      simp only [esp_ap_configure]
      split_ifs <;> rfl
  · cases sta with
    | none => rfl
    | some asta =>
      simp only [esp_ap_list_sta]
      split_ifs <;> rfl
  · cases mac <;> rfl

/-- C3 counterexample: the claim says any failure, *including validation
rejection*, leaves the reported count at zero.  At the concrete input
`sta = NULL`, `stal = 1`, `staf` pointing at a cell holding 5, validation
rejects the call with `espPARERR` — but the count cell still holds 5, not
0, because the source returns from the `ESP_ASSERT`s before the
`*staf = 0` write. -/
theorem c3_counterexample :
    (esp_ap_list_sta (fun _ => 5) none 1 (some 0) none 0 1).1 = .parerr ∧
    (esp_ap_list_sta (fun _ => 5) none 1 (some 0) none 0 1).2 0 = 5 := by
  exact ⟨rfl, rfl⟩

/-- C3 (amended): for a non-null `staf`, `esp_ap_list_sta` writes 0 through
`staf` after validation passes and before the record is submitted — so the
store paired with a submitted record holds 0 at `staf`, and any failure at
or after submission still reports zero; a validation rejection, however,
returns before the write and leaves the caller's count untouched. -/
theorem c3_staf_zeroed (mem : Mem) (sta : Option Nat) (stal af : Nat)
    (f : Option Nat) (a b : Nat) :
    (∀ m t, (esp_ap_list_sta mem sta stal (some af) f a b).1 = .submitted m t →
      (esp_ap_list_sta mem sta stal (some af) f a b).2 af = 0) ∧
    ((esp_ap_list_sta mem sta stal (some af) f a b).1 = .parerr →
      (esp_ap_list_sta mem sta stal (some af) f a b).2 = mem) := by
  cases sta with
  | none => exact ⟨fun m t h => by simp [esp_ap_list_sta] at h, fun _ => rfl⟩
  | some asta =>
    by_cases h : stal = 0
    · subst h
      exact ⟨fun m t hc => by simp [esp_ap_list_sta] at hc, fun _ => rfl⟩
    · refine ⟨fun m t _ => ?_, fun hc => ?_⟩
      · simp [esp_ap_list_sta, h, writeCell]
      · simp [esp_ap_list_sta, h] at hc

/-- Witness for the amended C3: a concrete valid call (station array at
cell 3, capacity 1, count pointer at cell 0 holding 5) submits, and the
returned store holds 0 at the count cell. -/
theorem c3_staf_zeroed_witness :
    (esp_ap_list_sta (fun _ => 5) (some 3) 1 (some 0) none 0 1).2 0 = 0 :=
  (c3_staf_zeroed (fun _ => 5) (some 3) 1 0 none 0 1).1
    { cmd_def := .ESP_CMD_WIFI_CWLIF
      evt_fn := none
      evt_arg := 0
      is_blocking := true
      payload := .sta_list (some 3) 1 (some 0) } 1000 rfl

/-- C4: the fixed-size binary payloads are copied at construction time —
`esp_ap_setip`, `esp_ap_setmac` and `esp_ap_disconn_sta` build records whose
payloads hold the cell contents (`readCells` of the call-time store) of the
caller's buffers, not the pointers; the record is a value, so later mutation
or release of the caller's buffer cannot affect it. -/
theorem c4_copied_fields (mem : Mem) (aip agw anm amac amac2 : Nat)
    (f : Option Nat) (a b : Nat) :
    esp_ap_setip mem (some aip) (some agw) (some anm) f a b =
      .submitted
        { cmd_def := .ESP_CMD_WIFI_CIPAP_SET
          evt_fn := f
          evt_arg := a
          is_blocking := b > 0
          payload := .sta_ap_setip (readCells mem aip 4) (readCells mem agw 4)
            (readCells mem anm 4) } 1000 ∧
    (mem amac % 2 = 0 →
      esp_ap_setmac mem (some amac) f a b =
        .submitted
          { cmd_def := .ESP_CMD_WIFI_CIPAPMAC_SET
            evt_fn := f
            evt_arg := a
            is_blocking := b > 0
            payload := .sta_ap_setmac (readCells mem amac 6) } 1000) ∧
    esp_ap_disconn_sta mem (some amac2) f a b =
      .submitted
        { cmd_def := .ESP_CMD_WIFI_CWQIF
          evt_fn := f
          evt_arg := a
          is_blocking := b > 0
          payload := .ap_disconn_sta (readCells mem amac2 6) } 1000 := by
  refine ⟨rfl, fun h => ?_, rfl⟩
  simp [esp_ap_setmac, h]

/-- Witness for C4: on the identity store with buffers at cells 0, 10, 20
and an even first MAC octet at cell 100, all three records hold the
concrete copied cell contents. -/
theorem c4_copied_fields_witness :
    esp_ap_setip memId (some 0) (some 10) (some 20) none 0 1 =
      .submitted
        { cmd_def := .ESP_CMD_WIFI_CIPAP_SET
          evt_fn := none
          evt_arg := 0
          is_blocking := true
          payload := .sta_ap_setip [0, 1, 2, 3] [10, 11, 12, 13]
            [20, 21, 22, 23] } 1000 ∧
    esp_ap_setmac memId (some 100) none 0 1 =
      .submitted
        { cmd_def := .ESP_CMD_WIFI_CIPAPMAC_SET
          evt_fn := none
          evt_arg := 0
          is_blocking := true
          payload := .sta_ap_setmac [100, 101, 102, 103, 104, 105] } 1000 ∧
    esp_ap_disconn_sta memId (some 200) none 0 1 =
      .submitted
        { cmd_def := .ESP_CMD_WIFI_CWQIF
          evt_fn := none
          evt_arg := 0
          is_blocking := true
          payload := .ap_disconn_sta [200, 201, 202, 203, 204, 205] } 1000 := by
  have h := c4_copied_fields memId 0 10 20 100 200 none 0 1
  refine ⟨?_, ?_, ?_⟩
  · rw [h.1]; rfl
  · rw [h.2.1 (by decide)]; rfl
  · rw [h.2.2]; rfl

/-- C5: when validation passes, `esp_ap_configure` stores the SSID and
passphrase in the record as the caller's pointers themselves (the record's
`ssid`/`pwd` fields are the very argument addresses, no copy), while the
channel, encryption mode, station limit and hidden flag are stored by
value. -/
theorem c5_referenced_fields (mem : Mem) (assid : Nat) (pwd : Option Nat)
    (ch ecn max_sta hid : Nat) (f : Option Nat) (a b : Nat)
    (h1 : pwd_len_ok mem pwd = true) (h2 : ecn_ok ecn = true)
    (h3 : ch ≤ 128) (h4 : 1 ≤ max_sta) (h5 : max_sta ≤ 10) :
    esp_ap_configure mem (some assid) pwd ch ecn max_sta hid f a b =
      .submitted
        { cmd_def := .ESP_CMD_WIFI_CWSAP_SET
          evt_fn := f
          evt_arg := a
          is_blocking := b > 0
          payload := .ap_conf (some assid) pwd ch ecn max_sta hid } 10000 := by
  simp [esp_ap_configure, h1, h2]
  rw [if_neg (by omega), if_neg (by omega)]

/-- Witness for C5: a concrete valid configuration (SSID at cell 1000,
passphrase at cell 66 of the zero store so it is empty, channel 6,
WPA2-PSK, 4 stations, not hidden) submits a record holding the argument
pointers for SSID and passphrase. -/
theorem c5_referenced_fields_witness :
    esp_ap_configure (fun _ => 0) (some 1000) (some 66) 6 3 4 0 none 7 1 =
      .submitted
        { cmd_def := .ESP_CMD_WIFI_CWSAP_SET
          evt_fn := none
          evt_arg := 7
          is_blocking := true
          payload := .ap_conf (some 1000) (some 66) 6 3 4 0 } 10000 :=
  c5_referenced_fields (fun _ => 0) 1000 (some 66) 6 3 4 0 none 7 1
    (by decide) (by decide) (by omega) (by omega) (by omega)

/-- C6: `esp_ap_setmac` fails with `InvalidArgument`, constructing and
queuing nothing, exactly when the MAC pointer is null or the
multicast/locally-administered bit (low bit of the first octet) is set; a
non-null MAC with that bit clear passes validation and is submitted. -/
theorem c6_setmac_validation (mem : Mem) (mac : Option Nat)
    (f : Option Nat) (a b : Nat) :
    (esp_ap_setmac mem mac f a b = .parerr ↔
      mac = none ∨ ∃ am, mac = some am ∧ mem am % 2 = 1) ∧
    (∀ am, mac = some am → mem am % 2 = 0 →
      esp_ap_setmac mem mac f a b =
        .submitted
          { cmd_def := .ESP_CMD_WIFI_CIPAPMAC_SET
            evt_fn := f
            evt_arg := a
            is_blocking := b > 0
            payload := .sta_ap_setmac (readCells mem am 6) } 1000) := by
  constructor
  · cases mac with
    | none => simp [esp_ap_setmac]
    | some am =>
      by_cases h : mem am % 2 = 1 <;> simp [esp_ap_setmac, h]
  · rintro am rfl h
    simp [esp_ap_setmac, h]

/-- Witness for C6: on the identity store, a MAC at cell 2 (first octet 2,
low bit clear) passes validation and submits the copied MAC with deadline
1000. -/
theorem c6_setmac_validation_witness :
    esp_ap_setmac memId (some 2) none 0 1 =
      .submitted
        { cmd_def := .ESP_CMD_WIFI_CIPAPMAC_SET
          evt_fn := none
          evt_arg := 0
          is_blocking := true
          payload := .sta_ap_setmac [2, 3, 4, 5, 6, 7] } 1000 := by
  rw [(c6_setmac_validation memId (some 2) none 0 1).2 2 rfl (by decide)]
  rfl

/-- C7: `esp_ap_disconn_sta` with a null MAC pointer returns
`InvalidArgument` (`espPARERR`) synchronously at the call site, for every
callback, callback argument and blocking mode, and no record is created or
enqueued (`parerr` carries no record). -/
theorem c7_disconn_null_mac (mem : Mem) (f : Option Nat) (a b : Nat) :
    esp_ap_disconn_sta mem none f a b = .parerr ∧
    retOf (esp_ap_disconn_sta mem none f a b) = some .espPARERR := by
  exact ⟨rfl, rfl⟩

/-- C9: `esp_ap_setip` guards only the `ip` argument — a null `ip` is the
sole `InvalidArgument` branch — yet it copies all three of `ip`, `gw`, `nm`
unconditionally, so a null `gw` or a null `nm` (documented as "use
default") is read as an `ESP_MEMCPY` source, a null-pointer dereference;
safe execution therefore requires `gw` and `nm` to be non-null, in which
case all three addresses are byte-copied and the record submitted. -/
theorem c9_setip_unguarded_copies (mem : Mem) (aip agw anm : Nat)
    (gw nm : Option Nat) (f : Option Nat) (a b : Nat) :
    esp_ap_setip mem none gw nm f a b = .parerr ∧
    esp_ap_setip mem (some aip) none nm f a b = .nullDeref ∧
    esp_ap_setip mem (some aip) gw none f a b = .nullDeref ∧
    esp_ap_setip mem (some aip) (some agw) (some anm) f a b =
      .submitted
        { cmd_def := .ESP_CMD_WIFI_CIPAP_SET
          evt_fn := f
          evt_arg := a
          is_blocking := b > 0
          payload := .sta_ap_setip (readCells mem aip 4) (readCells mem agw 4)
            (readCells mem anm 4) } 1000 := by
  refine ⟨rfl, ?_, ?_, rfl⟩
  · cases nm <;> rfl
  · cases gw <;> rfl

/-- C10: `esp_ap_list_sta` rejects a null station array or a zero capacity
with `InvalidArgument` before the count output is touched (the store is
returned unchanged); a null `staf` count pointer is accepted — the record
submits with a null `staf` field and the store untouched, so the count is
never written, neither zeroed at the call site nor updatable on
completion. -/
theorem c10_list_sta_validation (mem : Mem) (sta staf : Option Nat)
    (stal stal2 asta : Nat) (f : Option Nat) (a b : Nat) :
    esp_ap_list_sta mem none stal staf f a b = (.parerr, mem) ∧
    esp_ap_list_sta mem sta 0 staf f a b = (.parerr, mem) ∧
    esp_ap_list_sta mem (some asta) (stal2 + 1) none f a b =
      (.submitted
        { cmd_def := .ESP_CMD_WIFI_CWLIF
          evt_fn := f
          evt_arg := a
          is_blocking := b > 0
          payload := .sta_list (some asta) (stal2 + 1) none } 1000, mem) := by
  refine ⟨rfl, ?_, ?_⟩
  · cases sta <;> rfl
  · simp [esp_ap_list_sta]
